import Mathlib

/-!
Verification development for the AeroGame flight-game simulation core.

The source is a per-frame JavaScript simulation.  We embed the core state
and the per-tick update as executable Lean definitions over exact rational
arithmetic (the source uses JS numbers; we model the intended real
arithmetic with Rat).  The single square root in the source
(distance-from-ring-center) is embedded by comparing squared distances
against squared thresholds, which is exactly equivalent over an ordered
field since both sides are nonnegative.  Unseeded randomness (procedural
pillar placement) is modelled by an oracle parameter supplying the spawned
pillar coordinates; every other part of the update is translated directly.
-/

namespace AeroGame

/-- Game settings constants from the source. -/
def PILLAR_HEIGHT : ℚ := 20

/-- Pillar lateral/depth size constant from the source. -/
def PILLAR_WIDTH : ℚ := 2

/-- Row spacing used by the pillar generator. -/
def PILLAR_SPACING : ℚ := 50

/-- Initial forward speed constant from the source. -/
def INITIAL_SPEED : ℚ := 1/2

/-- Upper speed bound from the source. -/
def MAX_SPEED : ℚ := 5

/-- Lower speed bound from the source. -/
def MIN_SPEED : ℚ := 1/10

/-- Barrier x-limit used in checkCollisions (BARRIER_X_LIMIT = 42). -/
def BARRIER_X_LIMIT : ℚ := 42

/-- Half of the plane's wing span used in checkCollisions. -/
def PLANE_HALF_WIDTH : ℚ := 3

/-- Developer setting: lock levels until the previous one is completed. -/
def LOCK_LEVEL : Bool := true

/-- Target distances of the five levels (LEVELS[i].distance). -/
def LEVELS_distance : List ℚ := [3000, 6000, 9000, 12000, 15000]

/-- Initial unlocked flags of the five levels (LEVELS[i].unlocked). -/
def LEVELS_unlocked0 : List Bool := [true, false, false, false, false]

/-- Number of levels (LEVELS.length). -/
def LEVELS_length : ℕ := 5

/-- Distance of level n (1-based, as in the source LEVELS[n-1].distance). -/
def levelDist (n : ℕ) : ℚ := LEVELS_distance.getD (n - 1) 0

/-- One pillar obstacle: its userData record {xPosition, zPosition, passed}. -/
structure Obstacle where
  xPosition : ℚ
  zPosition : ℚ
  passed : Bool
  deriving Repr, DecidableEq

/-- createPillar: a fresh pillar starts with passed = false. -/
def mkPillar (x z : ℚ) : Obstacle :=
  { xPosition := x, zPosition := z, passed := false }

/-- The golden ring: world position (x, y) and its stored zPosition. -/
structure Ring where
  x : ℚ
  y : ℚ
  zPosition : ℚ
  deriving Repr, DecidableEq

/-- Held-key state read by the update loop (keys map). -/
structure Keys where
  w : Bool
  s : Bool
  a : Bool
  d : Bool
  up : Bool
  down : Bool
  left : Bool
  right : Bool
  deriving Repr, DecidableEq

/-- The mutable globals of the simulation core.  x, y, z are
planePosition; rotX, rotZ are planeRotation.x / planeRotation.z
(planeRotation.y is never mutated).  btnContinue models whether the
restart button text currently reads Continue (set by completeLevel,
cleared by endGame / restartGame). -/
structure GameState where
  gameStarted : Bool
  gameOver : Bool
  btnContinue : Bool
  currentLevel : ℕ
  levelDistance : ℚ
  unlocked : List Bool
  speed : ℚ
  score : ℕ
  distance : ℚ
  x : ℚ
  y : ℚ
  z : ℚ
  rotX : ℚ
  rotZ : ℚ
  cameraAngle : ℚ
  pillars : List Obstacle
  ring : Option Ring
  deriving Repr, DecidableEq

/-- State right after page load: globals at their declared initial values;
the async model-load callback has installed the golden ring at
levelDistance - 50.  The initial random pillar population is supplied per
run through the generation oracle, so we start from the empty list. -/
def initialState : GameState :=
  { gameStarted := false, gameOver := false, btnContinue := false
    currentLevel := 1, levelDistance := 3000
    unlocked := LEVELS_unlocked0
    speed := INITIAL_SPEED, score := 0, distance := 0
    x := 0, y := 5, z := 0, rotX := 0, rotZ := 0, cameraAngle := 0
    pillars := []
    ring := some { x := 0, y := 8, zPosition := 3000 - 50 } }

/-- endGame: freeze the game and show the game-over screen; the restart
button text is reset to Restart Game. -/
def endGame (st : GameState) : GameState :=
  { st with gameOver := true, gameStarted := false, btnContinue := false }

/-- completeLevel: freeze the game, unlock the next level when one exists
(LEVELS[currentLevel].unlocked = true, 0-based index = next level), and
set the restart button text to Continue.  No timer: the player must press
Continue. -/
def completeLevel (st : GameState) : GameState :=
  let st1 := { st with gameOver := true, gameStarted := false }
  let st2 :=
    if st1.currentLevel < LEVELS_length then
      { st1 with unlocked := st1.unlocked.set st1.currentLevel true }
    else st1
  { st2 with btnContinue := true }

/-- startGame: begin playing (the start screen is hidden). -/
def startGame (st : GameState) : GameState :=
  { st with gameStarted := true }

/-- Kinematic step: speed controls, steering, pitch and camera-orbit
handling, then forward motion (z += speed, distance += speed), exactly in
the source's order.  Literals: 0.01 = 1/100, 0.3 = 3/10, 0.02 = 1/50,
0.1 = 1/10, 0.9 = 9/10. -/
def kinStep (keys : Keys) (st : GameState) : GameState :=
  let speed1 := if keys.w then min (st.speed + 1/100) MAX_SPEED else st.speed
  let speed2 := if keys.s then max (speed1 - 1/100) MIN_SPEED else speed1
  let xz :=
    if keys.d then (st.x - 3/10, min (st.rotZ + 1/50) (3/10))
    else if keys.a then (st.x + 3/10, max (st.rotZ - 1/50) (-(3/10)))
    else (st.x, st.rotZ * (9/10))
  let yx :=
    if keys.up then (max (st.y - 1/10) 1, min (st.rotX + 1/50) (3/10))
    else if keys.down then (min (st.y + 1/10) 15, max (st.rotX - 1/50) (-(3/10)))
    else (st.y, st.rotX * (9/10))
  let cam :=
    if keys.right then st.cameraAngle + 1/50
    else if keys.left then st.cameraAngle - 1/50
    else st.cameraAngle
  { st with speed := speed2
            x := xz.1, rotZ := xz.2
            y := yx.1, rotX := yx.2
            cameraAngle := cam
            z := st.z + speed2
            distance := st.distance + speed2 }

/-- Per-obstacle scoring step: a not-yet-passed pillar whose zPosition is
behind the plane's z is marked passed. -/
def scoreObstacle (planeZ : ℚ) (o : Obstacle) : Obstacle :=
  if !o.passed && decide (o.zPosition < planeZ) then { o with passed := true } else o

/-- Scoring pass over the pillars: mark newly passed pillars and add 10
points for each (the forEach in the source mutates each element
independently and accumulates score, i.e. a map plus a count). -/
def scorePass (st : GameState) : GameState :=
  { st with pillars := st.pillars.map (scoreObstacle st.z)
            score := st.score +
              10 * st.pillars.countP (fun o => !o.passed && decide (o.zPosition < st.z)) }

/-- AABB overlap test between the plane's bounding box (half-width 3,
half-height 0.5, half-depth 1) and a pillar's box (half-width
PILLAR_WIDTH/2 = 1 in x and z, height 0..PILLAR_HEIGHT). -/
def collides (st : GameState) (o : Obstacle) : Bool :=
  (decide (st.x + 3 ≥ o.xPosition - PILLAR_WIDTH / 2) &&
   decide (st.x - 3 ≤ o.xPosition + PILLAR_WIDTH / 2)) &&
  (decide (st.y + 1/2 ≥ 0) && decide (st.y - 1/2 ≤ PILLAR_HEIGHT)) &&
  (decide (st.z + 1 ≥ o.zPosition - PILLAR_WIDTH / 2) &&
   decide (st.z - 1 ≤ o.zPosition + PILLAR_WIDTH / 2))

/-- Pillar collision scan: any overlapping pillar ends the game. -/
def pillarCheck (st : GameState) : GameState :=
  if st.pillars.any (collides st) then endGame st else st

/-- Barrier interaction: a positional clamp, not a collision.  If the
plane's edge would cross a barrier the x position is clamped to the legal
boundary and written back. -/
def barrierClamp (st : GameState) : GameState :=
  if st.x - PLANE_HALF_WIDTH < -BARRIER_X_LIMIT then
    { st with x := -BARRIER_X_LIMIT + PLANE_HALF_WIDTH }
  else if st.x + PLANE_HALF_WIDTH > BARRIER_X_LIMIT then
    { st with x := BARRIER_X_LIMIT - PLANE_HALF_WIDTH }
  else st

/-- Ground collision: flying below y = 0.5 ends the game. -/
def groundCheck (st : GameState) : GameState :=
  if st.y < 1/2 then endGame st else st

/-- checkCollisions: pillar scan, then barrier clamp, then ground check,
in the source's order. -/
def checkCollisions (st : GameState) : GameState :=
  groundCheck (barrierClamp (pillarCheck st))

/-- Maximum zPosition among live pillars, 0 if none (the reduce in the
source). -/
def furthestPillar (ps : List Obstacle) : ℚ :=
  ps.foldl (fun m p => if p.zPosition > m then p.zPosition else m) 0

/-- Pillar generation: when the frontier is within 200m of the plane,
append freshly created pillars.  The random row loop is modelled by the
oracle parameter spawn listing the (x, z) coordinates it produces. -/
def genPhase (spawn : List (ℚ × ℚ)) (st : GameState) : GameState :=
  if furthestPillar st.pillars < st.z + 200 then
    { st with pillars := st.pillars ++ spawn.map (fun p => mkPillar p.1 p.2) }
  else st

/-- Eviction: remove every pillar whose zPosition is more than 100m behind
the plane (the reverse-indexed splice loop equals a filter). -/
def evictPhase (st : GameState) : GameState :=
  { st with pillars := st.pillars.filter (fun o => !decide (o.zPosition < st.z - 100)) }

/-- Goal-ring arrival check.  When plane.z is within ±2 of the ring's
zPosition the source compares sqrt(dx^2 + dy^2) with 6 and 8; we compare
the squared distance with 36 and 64, which is equivalent since sqrt is
monotone and both sides are nonnegative. -/
def ringCheck (st : GameState) : GameState :=
  match st.ring with
  | none => st
  | some r =>
    if st.z ≥ r.zPosition - 2 ∧ st.z ≤ r.zPosition + 2 then
      let distSq := (st.x - r.x) * (st.x - r.x) + (st.y - r.y) * (st.y - r.y)
      if distSq ≤ 36 then completeLevel st
      else if 36 < distSq ∧ distSq < 64 then endGame st
      else st
    else st

/-- Flew-past fallback: passing more than 10m beyond the ring without a
prior transition ends the game. -/
def flewPastCheck (st : GameState) : GameState :=
  match st.ring with
  | none => st
  | some r => if st.z > r.zPosition + 10 then endGame st else st

/-- The per-tick update.  A no-op unless the state machine is in Playing
(gameStarted and not gameOver); otherwise the phases run in the source's
order: kinematics, scoring, collisions, generation, eviction, ring
arrival, flew-past fallback.  Camera/light/UI writes are render-boundary
effects with no influence on this state. -/
def update (keys : Keys) (spawn : List (ℚ × ℚ)) (st : GameState) : GameState :=
  if !st.gameStarted || st.gameOver then st
  else
    flewPastCheck (ringCheck (evictPhase (genPhase spawn
      (checkCollisions (scorePass (kinStep keys st))))))

/-- selectLevel: a locked level (with LOCK_LEVEL enabled) is rejected with
an alert and no state change; the returned Bool records whether the
notification fired.  Otherwise the selection sets the level and its
distance, clears and (via the async model load, modelled by the spawn
oracle) repopulates the pillars, recreates the golden ring at the new
levelDistance - 50, and starts playing. -/
def selectLevel (levelNum : ℕ) (spawn : List (ℚ × ℚ)) (st : GameState) :
    GameState × Bool :=
  let unlockedFlag := st.unlocked.getD (levelNum - 1) false
  if LOCK_LEVEL && !unlockedFlag then (st, true)
  else
    ({ st with currentLevel := levelNum
               levelDistance := levelDist levelNum
               pillars := spawn.map (fun p => mkPillar p.1 p.2)
               ring := some { x := 0, y := 8, zPosition := levelDist levelNum - 50 }
               gameStarted := true
               gameOver := false }, false)

/-- restartGame: when the button reads Continue and a next level exists,
advance the level index and its distance first; then reset the session
(speed, score, distance, pose), regenerate pillars (spawn oracle) and
recreate the ring for the (possibly new) levelDistance. -/
def restartGame (spawn : List (ℚ × ℚ)) (st : GameState) : GameState :=
  let st1 :=
    if st.btnContinue && decide (st.currentLevel < LEVELS_length) then
      { st with currentLevel := st.currentLevel + 1
                levelDistance := levelDist (st.currentLevel + 1) }
    else st
  { st1 with btnContinue := false
             gameOver := false
             gameStarted := true
             speed := INITIAL_SPEED
             score := 0
             distance := 0
             x := 0, y := 5, z := 0, rotX := 0, rotZ := 0
             cameraAngle := 0
             pillars := spawn.map (fun p => mkPillar p.1 p.2)
             ring := some { x := 0, y := 8, zPosition := st1.levelDistance - 50 } }

/-- returnToMainMenu: full reset back to the menu state; pillars cleared,
level buttons refreshed (render-side). -/
def returnToMainMenu (st : GameState) : GameState :=
  { st with gameOver := false
            gameStarted := false
            speed := INITIAL_SPEED
            score := 0
            distance := 0
            x := 0, y := 5, z := 0, rotX := 0, rotZ := 0
            cameraAngle := 0
            pillars := [] }

/-- The state machine is in Playing exactly when the simulation runs. -/
def isPlaying (st : GameState) : Prop :=
  st.gameStarted = true ∧ st.gameOver = false

/-- Frozen game-over display state (button text Restart Game). -/
def isGameOverState (st : GameState) : Prop :=
  st.gameOver = true ∧ st.gameStarted = false ∧ st.btnContinue = false

/-- Frozen level-complete display state (button text Continue). -/
def isLevelCompleteState (st : GameState) : Prop :=
  st.gameOver = true ∧ st.gameStarted = false ∧ st.btnContinue = true

/-- States reachable from page load through the core entry points (ticks,
restart, level selection, start, return to menu), with the randomness
oracle universally quantified. -/
inductive Reachable : GameState → Prop where
  | init : Reachable initialState
  | tick (keys : Keys) (spawn : List (ℚ × ℚ)) (st : GameState) :
      Reachable st → Reachable (update keys spawn st)
  | restart (spawn : List (ℚ × ℚ)) (st : GameState) :
      Reachable st → Reachable (restartGame spawn st)
  | select (n : ℕ) (spawn : List (ℚ × ℚ)) (st : GameState) :
      Reachable st → Reachable (selectLevel n spawn st).1
  | start (st : GameState) : Reachable st → Reachable (startGame st)
  | menu (st : GameState) : Reachable st → Reachable (returnToMainMenu st)

/-- All fields other than the state-machine flags (gameStarted, gameOver,
btnContinue) and the unlock list agree between two states. -/
def EqExceptFlags (st st' : GameState) : Prop :=
  st'.x = st.x ∧ st'.y = st.y ∧ st'.z = st.z ∧
  st'.speed = st.speed ∧ st'.rotX = st.rotX ∧ st'.rotZ = st.rotZ ∧
  st'.score = st.score ∧ st'.distance = st.distance ∧
  st'.cameraAngle = st.cameraAngle ∧
  st'.currentLevel = st.currentLevel ∧ st'.levelDistance = st.levelDistance ∧
  st'.pillars = st.pillars ∧ st'.ring = st.ring

theorem eqExceptFlags_refl (st : GameState) : EqExceptFlags st st :=
  ⟨rfl, rfl, rfl, rfl, rfl, rfl, rfl, rfl, rfl, rfl, rfl, rfl, rfl⟩

theorem endGame_core (st : GameState) : EqExceptFlags st (endGame st) :=
  eqExceptFlags_refl st

theorem completeLevel_core (st : GameState) : EqExceptFlags st (completeLevel st) := by
  unfold completeLevel
  dsimp only
  split <;> exact ⟨rfl, rfl, rfl, rfl, rfl, rfl, rfl, rfl, rfl, rfl, rfl, rfl, rfl⟩

theorem pillarCheck_core (st : GameState) : EqExceptFlags st (pillarCheck st) := by
  unfold pillarCheck
  split
  · exact endGame_core st
  · exact eqExceptFlags_refl st

theorem groundCheck_core (st : GameState) : EqExceptFlags st (groundCheck st) := by
  unfold groundCheck
  split
  · exact endGame_core st
  · exact eqExceptFlags_refl st

theorem ringCheck_core (st : GameState) : EqExceptFlags st (ringCheck st) := by
  unfold ringCheck
  cases st.ring
  · exact eqExceptFlags_refl st
  · dsimp only
    split
    · split
      · exact completeLevel_core st
      · split
        · exact endGame_core st
        · exact eqExceptFlags_refl st
    · exact eqExceptFlags_refl st

theorem flewPastCheck_core (st : GameState) : EqExceptFlags st (flewPastCheck st) := by
  unfold flewPastCheck
  cases st.ring
  · exact eqExceptFlags_refl st
  · dsimp only
    split
    · exact endGame_core st
    · exact eqExceptFlags_refl st

/-- The barrier clamp changes only the x position: every other field,
including the three state-machine flags, is untouched (in particular the
clamp can never cause a game-over). -/
theorem barrierClamp_rest (st : GameState) :
    (barrierClamp st).y = st.y ∧ (barrierClamp st).z = st.z ∧
    (barrierClamp st).speed = st.speed ∧ (barrierClamp st).rotX = st.rotX ∧
    (barrierClamp st).rotZ = st.rotZ ∧ (barrierClamp st).score = st.score ∧
    (barrierClamp st).currentLevel = st.currentLevel ∧
    (barrierClamp st).levelDistance = st.levelDistance ∧
    (barrierClamp st).pillars = st.pillars ∧ (barrierClamp st).ring = st.ring ∧
    (barrierClamp st).gameStarted = st.gameStarted ∧
    (barrierClamp st).gameOver = st.gameOver ∧
    (barrierClamp st).btnContinue = st.btnContinue := by
  unfold barrierClamp
  split
  · exact ⟨rfl, rfl, rfl, rfl, rfl, rfl, rfl, rfl, rfl, rfl, rfl, rfl, rfl⟩
  · split <;> exact ⟨rfl, rfl, rfl, rfl, rfl, rfl, rfl, rfl, rfl, rfl, rfl, rfl, rfl⟩

/-- After the clamp the plane's x always lies within the barrier limit
minus the plane's half-width, on both sides. -/
theorem barrierClamp_x_bound (st : GameState) :
    |(barrierClamp st).x| ≤ BARRIER_X_LIMIT - PLANE_HALF_WIDTH := by
  unfold barrierClamp BARRIER_X_LIMIT PLANE_HALF_WIDTH
  split_ifs with h1 h2
  · rw [abs_le]; constructor <;> norm_num
  · rw [abs_le]; constructor <;> norm_num
  · rw [abs_le]
    push_neg at h1 h2
    constructor <;> [linarith; linarith]

/-- The scoring pass changes only pillars and score. -/
theorem scorePass_rest (st : GameState) :
    (scorePass st).x = st.x ∧ (scorePass st).y = st.y ∧ (scorePass st).z = st.z ∧
    (scorePass st).speed = st.speed ∧ (scorePass st).rotX = st.rotX ∧
    (scorePass st).rotZ = st.rotZ ∧
    (scorePass st).currentLevel = st.currentLevel ∧
    (scorePass st).levelDistance = st.levelDistance ∧
    (scorePass st).ring = st.ring ∧
    (scorePass st).gameStarted = st.gameStarted ∧
    (scorePass st).gameOver = st.gameOver ∧
    (scorePass st).btnContinue = st.btnContinue :=
  ⟨rfl, rfl, rfl, rfl, rfl, rfl, rfl, rfl, rfl, rfl, rfl, rfl⟩

/-- Pillar generation changes only the pillar list. -/
theorem genPhase_rest (spawn : List (ℚ × ℚ)) (st : GameState) :
    (genPhase spawn st).x = st.x ∧ (genPhase spawn st).y = st.y ∧
    (genPhase spawn st).z = st.z ∧ (genPhase spawn st).speed = st.speed ∧
    (genPhase spawn st).rotX = st.rotX ∧ (genPhase spawn st).rotZ = st.rotZ ∧
    (genPhase spawn st).score = st.score ∧
    (genPhase spawn st).currentLevel = st.currentLevel ∧
    (genPhase spawn st).levelDistance = st.levelDistance ∧
    (genPhase spawn st).ring = st.ring ∧
    (genPhase spawn st).gameStarted = st.gameStarted ∧
    (genPhase spawn st).gameOver = st.gameOver ∧
    (genPhase spawn st).btnContinue = st.btnContinue := by
  unfold genPhase
  split <;> exact ⟨rfl, rfl, rfl, rfl, rfl, rfl, rfl, rfl, rfl, rfl, rfl, rfl, rfl⟩

/-- Eviction changes only the pillar list. -/
theorem evictPhase_rest (st : GameState) :
    (evictPhase st).x = st.x ∧ (evictPhase st).y = st.y ∧
    (evictPhase st).z = st.z ∧ (evictPhase st).speed = st.speed ∧
    (evictPhase st).rotX = st.rotX ∧ (evictPhase st).rotZ = st.rotZ ∧
    (evictPhase st).score = st.score ∧
    (evictPhase st).currentLevel = st.currentLevel ∧
    (evictPhase st).levelDistance = st.levelDistance ∧
    (evictPhase st).ring = st.ring ∧
    (evictPhase st).gameStarted = st.gameStarted ∧
    (evictPhase st).gameOver = st.gameOver ∧
    (evictPhase st).btnContinue = st.btnContinue :=
  ⟨rfl, rfl, rfl, rfl, rfl, rfl, rfl, rfl, rfl, rfl, rfl, rfl, rfl⟩

/-- The kinematic step leaves score, level fields, flags, pillars and ring
untouched. -/
theorem kinStep_rest (keys : Keys) (st : GameState) :
    (kinStep keys st).score = st.score ∧
    (kinStep keys st).currentLevel = st.currentLevel ∧
    (kinStep keys st).levelDistance = st.levelDistance ∧
    (kinStep keys st).pillars = st.pillars ∧
    (kinStep keys st).ring = st.ring ∧
    (kinStep keys st).gameStarted = st.gameStarted ∧
    (kinStep keys st).gameOver = st.gameOver ∧
    (kinStep keys st).btnContinue = st.btnContinue :=
  ⟨rfl, rfl, rfl, rfl, rfl, rfl, rfl, rfl⟩

/-- In Playing, one tick is the composition of the seven phases in source
order; otherwise it is the identity. -/
theorem update_playing (keys : Keys) (spawn : List (ℚ × ℚ)) (st : GameState)
    (h1 : st.gameStarted = true) (h2 : st.gameOver = false) :
    update keys spawn st =
      flewPastCheck (ringCheck (evictPhase (genPhase spawn
        (checkCollisions (scorePass (kinStep keys st)))))) := by
  unfold update
  rw [h1, h2]
  rfl

theorem update_frozen (keys : Keys) (spawn : List (ℚ × ℚ)) (st : GameState)
    (h : st.gameStarted = false ∨ st.gameOver = true) :
    update keys spawn st = st := by
  unfold update
  rcases h with h | h <;> simp [h]

/-- The movement envelope from the spec: speed within
[MIN_SPEED, MAX_SPEED], pitch and roll angles within [-0.3, 0.3]. -/
def envelopeOK (st : GameState) : Prop :=
  MIN_SPEED ≤ st.speed ∧ st.speed ≤ MAX_SPEED ∧
  -(3/10) ≤ st.rotX ∧ st.rotX ≤ 3/10 ∧
  -(3/10) ≤ st.rotZ ∧ st.rotZ ≤ 3/10

theorem kinStep_envelope (keys : Keys) (st : GameState) (h : envelopeOK st) :
    envelopeOK (kinStep keys st) := by
  obtain ⟨h1, h2, h3, h4, h5, h6⟩ := h
  simp only [MIN_SPEED, MAX_SPEED] at h1 h2
  unfold envelopeOK kinStep
  simp only [MIN_SPEED, MAX_SPEED]
  refine ⟨?_, ?_, ?_, ?_, ?_, ?_⟩ <;>
    · split_ifs <;> (try dsimp only) <;> (try simp only [min_def, max_def]) <;>
        (try split_ifs) <;> linarith

theorem kinStep_y_bound (keys : Keys) (st : GameState)
    (h1 : 1 ≤ st.y) (h2 : st.y ≤ 15) :
    1 ≤ (kinStep keys st).y ∧ (kinStep keys st).y ≤ 15 := by
  unfold kinStep
  dsimp only
  constructor <;>
    · split_ifs <;> (try dsimp only) <;> (try simp only [min_def, max_def]) <;>
        (try split_ifs) <;> linarith

theorem scorePass_score_ge (st : GameState) : st.score ≤ (scorePass st).score :=
  Nat.le_add_right _ _

/-- During a Playing tick the kinematic fields produced by kinStep survive
the remaining phases unchanged (except x, which is further clamped), the
level fields are never touched, and the score can only grow. -/
theorem update_fields_playing (keys : Keys) (spawn : List (ℚ × ℚ))
    (st : GameState) (h1 : st.gameStarted = true) (h2 : st.gameOver = false) :
    (update keys spawn st).y = (kinStep keys st).y ∧
    (update keys spawn st).z = (kinStep keys st).z ∧
    (update keys spawn st).speed = (kinStep keys st).speed ∧
    (update keys spawn st).rotX = (kinStep keys st).rotX ∧
    (update keys spawn st).rotZ = (kinStep keys st).rotZ ∧
    (update keys spawn st).currentLevel = st.currentLevel ∧
    (update keys spawn st).levelDistance = st.levelDistance ∧
    st.score ≤ (update keys spawn st).score ∧
    (update keys spawn st).x =
      (barrierClamp (pillarCheck (scorePass (kinStep keys st)))).x := by
  rw [update_playing keys spawn st h1 h2]
  unfold checkCollisions
  obtain ⟨ax, ay, az, asp, arx, arz, acl, ald, -, -, -, -⟩ :=
    scorePass_rest (kinStep keys st)
  obtain ⟨bx, by', bz, bsp, brx, brz, bsc, -, -, bcl, bld, -, -⟩ :=
    pillarCheck_core (scorePass (kinStep keys st))
  obtain ⟨cy, cz, csp, crx, crz, csc, ccl, cld, -, -, -, -, -⟩ :=
    barrierClamp_rest (pillarCheck (scorePass (kinStep keys st)))
  obtain ⟨dx, dy, dz, dsp, drx, drz, dsc, -, -, dcl, dld, -, -⟩ :=
    groundCheck_core (barrierClamp (pillarCheck (scorePass (kinStep keys st))))
  obtain ⟨ex, ey, ez, esp, erx, erz, esc, ecl, eld, -, -, -, -⟩ :=
    genPhase_rest spawn
      (groundCheck (barrierClamp (pillarCheck (scorePass (kinStep keys st)))))
  obtain ⟨fx, fy, fz, fsp, frx, frz, fsc, fcl, fld, -, -, -, -⟩ :=
    evictPhase_rest (genPhase spawn
      (groundCheck (barrierClamp (pillarCheck (scorePass (kinStep keys st))))))
  obtain ⟨gx, gy, gz, gsp, grx, grz, gsc, -, -, gcl, gld, -, -⟩ :=
    ringCheck_core (evictPhase (genPhase spawn
      (groundCheck (barrierClamp (pillarCheck (scorePass (kinStep keys st)))))))
  obtain ⟨hx, hy, hz, hsp, hrx, hrz, hsc, -, -, hcl, hld, -, -⟩ :=
    flewPastCheck_core (ringCheck (evictPhase (genPhase spawn
      (groundCheck (barrierClamp (pillarCheck (scorePass (kinStep keys st))))))))
  obtain ⟨ksc, kcl, kld, -, -, -, -, -⟩ := kinStep_rest keys st
  refine ⟨?_, ?_, ?_, ?_, ?_, ?_, ?_, ?_, ?_⟩
  · rw [hy, gy, fy, ey, dy, cy, by', ay]
  · rw [hz, gz, fz, ez, dz, cz, bz, az]
  · rw [hsp, gsp, fsp, esp, dsp, csp, bsp, asp]
  · rw [hrx, grx, frx, erx, drx, crx, brx, arx]
  · rw [hrz, grz, frz, erz, drz, crz, brz, arz]
  · rw [hcl, gcl, fcl, ecl, dcl, ccl, bcl, acl, kcl]
  · rw [hld, gld, fld, eld, dld, cld, bld, ald, kld]
  · rw [hsc, gsc, fsc, esc, dsc, csc, bsc]
    calc st.score = (kinStep keys st).score := ksc.symm
      _ ≤ (scorePass (kinStep keys st)).score := scorePass_score_ge _
  · rw [hx, gx, fx, ex, dx]

theorem endGame_isGO (st : GameState) : isGameOverState (endGame st) :=
  ⟨rfl, rfl, rfl⟩

theorem completeLevel_isLC (st : GameState) :
    isLevelCompleteState (completeLevel st) := by
  unfold completeLevel isLevelCompleteState
  dsimp only
  split <;> exact ⟨rfl, rfl, rfl⟩

theorem update_x_bound_playing (keys : Keys) (spawn : List (ℚ × ℚ))
    (st : GameState) (h1 : st.gameStarted = true) (h2 : st.gameOver = false) :
    |(update keys spawn st).x| ≤ BARRIER_X_LIMIT - PLANE_HALF_WIDTH := by
  obtain ⟨-, -, -, -, -, -, -, -, hx⟩ := update_fields_playing keys spawn st h1 h2
  rw [hx]
  exact barrierClamp_x_bound _

theorem update_x_bound_of (keys : Keys) (spawn : List (ℚ × ℚ)) (st : GameState)
    (h : |st.x| ≤ BARRIER_X_LIMIT - PLANE_HALF_WIDTH) :
    |(update keys spawn st).x| ≤ BARRIER_X_LIMIT - PLANE_HALF_WIDTH := by
  cases h1 : st.gameStarted
  · rw [update_frozen keys spawn st (Or.inl h1)]; exact h
  · cases h2 : st.gameOver
    · exact update_x_bound_playing keys spawn st h1 h2
    · rw [update_frozen keys spawn st (Or.inr h2)]; exact h

/-- C1: on every Playing tick the collision check clamps the plane's x
into [-(42-3), 42-3]: after checkCollisions |x| ≤ 39 always holds, a
too-far-left (resp. -right) position is written back as exactly -39
(resp. 39), the clamp itself never changes the game-over or game-started
flags, and the bound is preserved over any number of consecutive ticks. -/
theorem clamp_keeps_plane_inside_barriers :
    (∀ st : GameState,
       |(checkCollisions st).x| ≤ BARRIER_X_LIMIT - PLANE_HALF_WIDTH) ∧
    (∀ st : GameState,
       (st.x - PLANE_HALF_WIDTH < -BARRIER_X_LIMIT →
          (barrierClamp st).x = -BARRIER_X_LIMIT + PLANE_HALF_WIDTH) ∧
       (st.x + PLANE_HALF_WIDTH > BARRIER_X_LIMIT →
          (barrierClamp st).x = BARRIER_X_LIMIT - PLANE_HALF_WIDTH)) ∧
    (∀ st : GameState,
       (barrierClamp st).gameOver = st.gameOver ∧
       (barrierClamp st).gameStarted = st.gameStarted) ∧
    (∀ (keys : Keys) (spawn : List (ℚ × ℚ)) (st : GameState),
       st.gameStarted = true → st.gameOver = false →
       |(update keys spawn st).x| ≤ BARRIER_X_LIMIT - PLANE_HALF_WIDTH) ∧
    (∀ (keys : Keys) (spawn : List (ℚ × ℚ)) (st : GameState) (n : ℕ),
       |st.x| ≤ BARRIER_X_LIMIT - PLANE_HALF_WIDTH →
       |((update keys spawn)^[n] st).x| ≤ BARRIER_X_LIMIT - PLANE_HALF_WIDTH) := by
  refine ⟨?_, ?_, ?_, ?_, ?_⟩
  · intro st
    unfold checkCollisions
    obtain ⟨hx, -⟩ := groundCheck_core (barrierClamp (pillarCheck st))
    rw [hx]
    exact barrierClamp_x_bound _
  · intro st
    constructor
    · intro h
      unfold barrierClamp
      rw [if_pos h]
    · intro h
      unfold barrierClamp
      rw [if_neg (by simp only [BARRIER_X_LIMIT, PLANE_HALF_WIDTH] at h ⊢; linarith), if_pos h]
  · intro st
    obtain ⟨-, -, -, -, -, -, -, -, -, -, hgs, hgo, -⟩ := barrierClamp_rest st
    exact ⟨hgo, hgs⟩
  · exact update_x_bound_playing
  · intro keys spawn st n h
    induction n with
    | zero => exact h
    | succ n ih =>
        rw [Function.iterate_succ_apply']
        exact update_x_bound_of keys spawn _ ih

/-- A Playing state used by the witnesses: initial pose with the game
started. -/
def wPlaying : GameState := { initialState with gameStarted := true }

/-- State about to be clamped: plane pushed past the left barrier. -/
def wClampSt : GameState := { wPlaying with x := -50 }

/-- Witness for C1 at concrete states. -/
theorem clamp_keeps_plane_inside_barriers_witness :
    |(checkCollisions wPlaying).x| ≤ BARRIER_X_LIMIT - PLANE_HALF_WIDTH ∧
    (barrierClamp wClampSt).x = -BARRIER_X_LIMIT + PLANE_HALF_WIDTH ∧
    |(update { w := false, s := false, a := false, d := true, up := false,
               down := false, left := false, right := false } [] wPlaying).x| ≤
      BARRIER_X_LIMIT - PLANE_HALF_WIDTH ∧
    |((update { w := false, s := false, a := false, d := true, up := false,
                down := false, left := false, right := false } [])^[3] wPlaying).x| ≤
      BARRIER_X_LIMIT - PLANE_HALF_WIDTH :=
  ⟨clamp_keeps_plane_inside_barriers.1 wPlaying,
   (clamp_keeps_plane_inside_barriers.2.1 wClampSt).1
     (by norm_num [wClampSt, wPlaying, initialState, PLANE_HALF_WIDTH,
                   BARRIER_X_LIMIT]),
   clamp_keeps_plane_inside_barriers.2.2.2.1 _ [] wPlaying rfl rfl,
   clamp_keeps_plane_inside_barriers.2.2.2.2 _ [] wPlaying 3
     (by norm_num [wPlaying, initialState, PLANE_HALF_WIDTH, BARRIER_X_LIMIT])⟩

/-- C2: when the plane's z is within ±2 of the ring's zPosition and d is
the planar distance from the ring center (x and y only), d ≤ 6 yields the
LevelComplete transition, 6 < d < 8 yields the GameOver transition, and
d ≥ 8 leaves the state unchanged by this check. -/
theorem ring_arrival_trichotomy :
    ∀ (st : GameState) (r : Ring) (d : ℚ),
      st.ring = some r →
      r.zPosition - 2 ≤ st.z → st.z ≤ r.zPosition + 2 →
      0 ≤ d →
      d * d = (st.x - r.x) * (st.x - r.x) + (st.y - r.y) * (st.y - r.y) →
      ((d ≤ 6 → ringCheck st = completeLevel st ∧
          isLevelCompleteState (ringCheck st)) ∧
       (6 < d → d < 8 → ringCheck st = endGame st ∧
          isGameOverState (ringCheck st)) ∧
       (8 ≤ d → ringCheck st = st)) := by
  intro st r d hr hz1 hz2 hd0 hdd
  set s : ℚ := (st.x - r.x) * (st.x - r.x) + (st.y - r.y) * (st.y - r.y) with hs
  have hred : ringCheck st =
      if s ≤ 36 then completeLevel st
      else if 36 < s ∧ s < 64 then endGame st else st := by
    unfold ringCheck
    rw [hr]
    dsimp only
    rw [if_pos ⟨hz1, hz2⟩]
  refine ⟨?_, ?_, ?_⟩
  · intro h6
    have hle : s ≤ 36 := by nlinarith
    rw [hred, if_pos hle]
    exact ⟨rfl, completeLevel_isLC st⟩
  · intro h6 h8
    have hgt : 36 < s := by nlinarith
    have hlt : s < 64 := by nlinarith
    rw [hred, if_neg (not_le.mpr hgt), if_pos ⟨hgt, hlt⟩]
    exact ⟨rfl, endGame_isGO st⟩
  · intro h8
    have hge : 64 ≤ s := by nlinarith
    rw [hred, if_neg (by linarith : ¬s ≤ 36),
        if_neg (fun hc => absurd hc.2 (not_lt.mpr hge))]

/-- State at the ring used by the C2 witness: ring center (0, 8), plane at
x = 3, y = 12, so the planar distance is exactly 5. -/
def wRingSt : GameState := { wPlaying with z := 2949, x := 3, y := 12 }

/-- Witness for C2: a pass at planar distance 5 completes the level. -/
theorem ring_arrival_trichotomy_witness :
    ringCheck wRingSt = completeLevel wRingSt ∧
    isLevelCompleteState (ringCheck wRingSt) :=
  (ring_arrival_trichotomy wRingSt { x := 0, y := 8, zPosition := 3000 - 50 } 5
    rfl (by norm_num [wRingSt, wPlaying, initialState])
    (by norm_num [wRingSt, wPlaying, initialState])
    (by norm_num)
    (by norm_num [wRingSt, wPlaying, initialState])).1 (by norm_num)

/-- C4: if the plane's z exceeds the ring's zPosition + 10, the ring
arrival check does not fire (z is beyond the ±2 window) and the flew-past
fallback, evaluated after it, forces a GameOver; in a Playing tick the
ring check indeed runs right before the fallback. -/
theorem flew_past_forces_game_over :
    (∀ (st : GameState) (r : Ring), st.ring = some r →
       st.z > r.zPosition + 10 →
       ringCheck st = st ∧ flewPastCheck st = endGame st ∧
       isGameOverState (flewPastCheck (ringCheck st))) ∧
    (∀ (keys : Keys) (spawn : List (ℚ × ℚ)) (st : GameState),
       st.gameStarted = true → st.gameOver = false →
       update keys spawn st =
         flewPastCheck (ringCheck (evictPhase (genPhase spawn
           (checkCollisions (scorePass (kinStep keys st))))))) := by
  constructor
  · intro st r hr hz
    have hrc : ringCheck st = st := by
      unfold ringCheck
      rw [hr]
      dsimp only
      rw [if_neg (fun hc => absurd hc.2 (by linarith))]
    have hfp : flewPastCheck st = endGame st := by
      unfold flewPastCheck
      rw [hr]
      dsimp only
      rw [if_pos hz]
    refine ⟨hrc, hfp, ?_⟩
    rw [hrc, hfp]
    exact endGame_isGO st
  · exact update_playing

/-- State 11m past the ring used by the C4 witness. -/
def wFlewSt : GameState := { wPlaying with z := 2961 }

/-- Witness for C4 at z = ringZ + 11. -/
theorem flew_past_forces_game_over_witness :
    (ringCheck wFlewSt = wFlewSt ∧ flewPastCheck wFlewSt = endGame wFlewSt ∧
       isGameOverState (flewPastCheck (ringCheck wFlewSt))) ∧
    update { w := false, s := false, a := false, d := false, up := false,
             down := false, left := false, right := false } [] wPlaying =
      flewPastCheck (ringCheck (evictPhase (genPhase []
        (checkCollisions (scorePass (kinStep
          { w := false, s := false, a := false, d := false, up := false,
            down := false, left := false, right := false } wPlaying)))))) :=
  ⟨flew_past_forces_game_over.1 wFlewSt { x := 0, y := 8, zPosition := 3000 - 50 }
      rfl (by norm_num [wFlewSt, wPlaying, initialState]),
   flew_past_forces_game_over.2 _ [] wPlaying rfl rfl⟩

/-- C5: one tick (any held-key combination) preserves the movement
envelope: speed stays in [MIN_SPEED, MAX_SPEED] = [0.1, 5] and the pitch
and roll angles stay in [-0.3, 0.3]. -/
theorem kinematics_respect_envelopes :
    ∀ (keys : Keys) (spawn : List (ℚ × ℚ)) (st : GameState), envelopeOK st →
      envelopeOK (kinStep keys st) ∧ envelopeOK (update keys spawn st) := by
  intro keys spawn st h
  refine ⟨kinStep_envelope keys st h, ?_⟩
  cases h1 : st.gameStarted
  · rw [update_frozen keys spawn st (Or.inl h1)]; exact h
  · cases h2 : st.gameOver
    · obtain ⟨-, -, hsp, hrx, hrz, -, -, -, -⟩ :=
        update_fields_playing keys spawn st h1 h2
      obtain ⟨k1, k2, k3, k4, k5, k6⟩ := kinStep_envelope keys st h
      exact ⟨by rw [hsp]; exact k1, by rw [hsp]; exact k2, by rw [hrx]; exact k3,
             by rw [hrx]; exact k4, by rw [hrz]; exact k5, by rw [hrz]; exact k6⟩
    · rw [update_frozen keys spawn st (Or.inr h2)]; exact h

/-- Witness for C5 at the started initial state with all keys held. -/
theorem kinematics_respect_envelopes_witness :
    envelopeOK (kinStep { w := true, s := true, a := true, d := true,
                          up := true, down := true, left := true,
                          right := true } wPlaying) ∧
    envelopeOK (update { w := true, s := true, a := true, d := true,
                         up := true, down := true, left := true,
                         right := true } [] wPlaying) :=
  kinematics_respect_envelopes _ [] wPlaying
    (by norm_num [envelopeOK, wPlaying, initialState, MIN_SPEED, MAX_SPEED,
                  INITIAL_SPEED])

/-- C3: completing a level freezes the simulation in the LevelComplete
display state without touching the level index; ticks are no-ops while
frozen and never change the level index or target distance (so nothing
advances on a timer); only the explicit continue action (restartGame with
the button reading Continue) advances the level index first and then
reinitializes pillars and the ring for the new target distance. -/
theorem level_complete_waits_for_continue :
    (∀ st : GameState, isLevelCompleteState (completeLevel st) ∧
       (completeLevel st).currentLevel = st.currentLevel) ∧
    (∀ (keys : Keys) (spawn : List (ℚ × ℚ)) (st : GameState),
       st.gameOver = true → update keys spawn st = st) ∧
    (∀ (keys : Keys) (spawn : List (ℚ × ℚ)) (st : GameState),
       (update keys spawn st).currentLevel = st.currentLevel ∧
       (update keys spawn st).levelDistance = st.levelDistance) ∧
    (∀ (spawn : List (ℚ × ℚ)) (st : GameState),
       st.btnContinue = true → st.currentLevel < LEVELS_length →
       (restartGame spawn st).currentLevel = st.currentLevel + 1 ∧
       (restartGame spawn st).levelDistance = levelDist (st.currentLevel + 1) ∧
       (restartGame spawn st).gameStarted = true ∧
       (restartGame spawn st).gameOver = false ∧
       (restartGame spawn st).pillars = spawn.map (fun p => mkPillar p.1 p.2) ∧
       (restartGame spawn st).ring =
         some { x := 0, y := 8,
                zPosition := levelDist (st.currentLevel + 1) - 50 }) := by
  refine ⟨?_, ?_, ?_, ?_⟩
  · intro st
    obtain ⟨-, -, -, -, -, -, -, -, -, hcl, -, -, -⟩ := completeLevel_core st
    exact ⟨completeLevel_isLC st, hcl⟩
  · intro keys spawn st h
    exact update_frozen keys spawn st (Or.inr h)
  · intro keys spawn st
    cases h1 : st.gameStarted
    · rw [update_frozen keys spawn st (Or.inl h1)]; exact ⟨rfl, rfl⟩
    · cases h2 : st.gameOver
      · obtain ⟨-, -, -, -, -, hcl, hld, -, -⟩ :=
          update_fields_playing keys spawn st h1 h2
        exact ⟨hcl, hld⟩
      · rw [update_frozen keys spawn st (Or.inr h2)]; exact ⟨rfl, rfl⟩
  · intro spawn st h1 h2
    have hc : (st.btnContinue && decide (st.currentLevel < LEVELS_length)) = true := by
      rw [h1, decide_eq_true h2]
      rfl
    unfold restartGame
    rw [if_pos hc]
    exact ⟨rfl, rfl, rfl, rfl, rfl, rfl⟩

/-- Frozen LevelComplete state used by the C3 witness. -/
def wComplete : GameState :=
  { initialState with gameStarted := false, gameOver := true, btnContinue := true }

/-- Witness for C3: frozen states ignore ticks and continue advances the
level from 1 to 2. -/
theorem level_complete_waits_for_continue_witness :
    (isLevelCompleteState (completeLevel wPlaying) ∧
       (completeLevel wPlaying).currentLevel = wPlaying.currentLevel) ∧
    update { w := true, s := false, a := false, d := false, up := false,
             down := false, left := false, right := false } [] wComplete =
      wComplete ∧
    (restartGame [] wComplete).currentLevel = wComplete.currentLevel + 1 ∧
    (restartGame [] wComplete).levelDistance =
      levelDist (wComplete.currentLevel + 1) :=
  ⟨level_complete_waits_for_continue.1 wPlaying,
   level_complete_waits_for_continue.2.1 _ [] wComplete rfl,
   (level_complete_waits_for_continue.2.2.2 [] wComplete rfl (by decide)).1,
   (level_complete_waits_for_continue.2.2.2 [] wComplete rfl (by decide)).2.1⟩

/-- C9: with LOCK_LEVEL enabled, selecting a locked level is rejected with
a notification and leaves the state untouched; selecting an unlocked level
starts the game on that level with its configured distance. -/
theorem locked_level_selection_rejected :
    ∀ (n : ℕ) (spawn : List (ℚ × ℚ)) (st : GameState),
      1 ≤ n → n ≤ LEVELS_length →
      ((LOCK_LEVEL = true ∧ st.unlocked.getD (n - 1) false = false →
          selectLevel n spawn st = (st, true)) ∧
       (st.unlocked.getD (n - 1) false = true →
          (selectLevel n spawn st).2 = false ∧
          (selectLevel n spawn st).1.gameStarted = true ∧
          (selectLevel n spawn st).1.gameOver = false ∧
          (selectLevel n spawn st).1.currentLevel = n ∧
          (selectLevel n spawn st).1.levelDistance = levelDist n)) := by
  intro n spawn st _ _
  constructor
  · intro h
    have hc : (LOCK_LEVEL && !st.unlocked.getD (n - 1) false) = true := by
      rw [h.2]
      rfl
    unfold selectLevel
    rw [if_pos hc]
  · intro h
    have hc : ¬((LOCK_LEVEL && !st.unlocked.getD (n - 1) false) = true) := by
      rw [h]
      simp
    unfold selectLevel
    rw [if_neg hc]
    exact ⟨rfl, rfl, rfl, rfl, rfl⟩

/-- Witness for C9: from the initial unlock flags, level 2 is rejected
without a state change and level 1 starts the game at distance 3000. -/
theorem locked_level_selection_rejected_witness :
    selectLevel 2 [] initialState = (initialState, true) ∧
    (selectLevel 1 [] initialState).2 = false ∧
    (selectLevel 1 [] initialState).1.gameStarted = true ∧
    (selectLevel 1 [] initialState).1.levelDistance = levelDist 1 :=
  ⟨(locked_level_selection_rejected 2 [] initialState (by decide) (by decide)).1
      ⟨rfl, rfl⟩,
   ((locked_level_selection_rejected 1 [] initialState (by decide) (by decide)).2
      rfl).1,
   ((locked_level_selection_rejected 1 [] initialState (by decide) (by decide)).2
      rfl).2.1,
   ((locked_level_selection_rejected 1 [] initialState (by decide) (by decide)).2
      rfl).2.2.2.2⟩

/-- C6: the score never decreases over a tick; a scoring step marks an
obstacle passed exactly when it already was or its zPosition is behind the
plane, never moves it, and does nothing to an already-passed obstacle (so
each obstacle is scored at most once); the scoring pass is a map plus 10
points per newly passed pillar; and in a Playing tick the scoring pass
runs before eviction. -/
theorem scoring_monotone_and_idempotent :
    (∀ (keys : Keys) (spawn : List (ℚ × ℚ)) (st : GameState),
       st.score ≤ (update keys spawn st).score) ∧
    (∀ (z : ℚ) (o : Obstacle),
       ((scoreObstacle z o).passed = true ↔
          (o.passed = true ∨ o.zPosition < z)) ∧
       (scoreObstacle z o).xPosition = o.xPosition ∧
       (scoreObstacle z o).zPosition = o.zPosition ∧
       (o.passed = true → scoreObstacle z o = o)) ∧
    (∀ st : GameState,
       (scorePass st).pillars = st.pillars.map (scoreObstacle st.z) ∧
       (scorePass st).score = st.score +
         10 * st.pillars.countP
           (fun o => !o.passed && decide (o.zPosition < st.z))) ∧
    (∀ (keys : Keys) (spawn : List (ℚ × ℚ)) (st : GameState),
       st.gameStarted = true → st.gameOver = false →
       update keys spawn st =
         flewPastCheck (ringCheck (evictPhase (genPhase spawn
           (checkCollisions (scorePass (kinStep keys st))))))) := by
  refine ⟨?_, ?_, ?_, update_playing⟩
  · intro keys spawn st
    cases h1 : st.gameStarted
    · rw [update_frozen keys spawn st (Or.inl h1)]
    · cases h2 : st.gameOver
      · obtain ⟨-, -, -, -, -, -, -, hsc, -⟩ :=
          update_fields_playing keys spawn st h1 h2
        exact hsc
      · rw [update_frozen keys spawn st (Or.inr h2)]
  · intro z o
    refine ⟨?_, ?_, ?_, ?_⟩ <;>
      by_cases hp : o.passed = true <;> by_cases hz : o.zPosition < z <;>
        simp [scoreObstacle, hp, hz]
  · intro st
    exact ⟨rfl, rfl⟩

/-- Witness for C6: score monotone on a concrete tick, an already-passed
obstacle is untouched by scoring, and the tick decomposition at a Playing
state. -/
theorem scoring_monotone_and_idempotent_witness :
    wPlaying.score ≤
      (update { w := true, s := false, a := false, d := false, up := false,
                down := false, left := false, right := false } [] wPlaying).score ∧
    scoreObstacle 5 { xPosition := 0, zPosition := 0, passed := true } =
      { xPosition := 0, zPosition := 0, passed := true } ∧
    update { w := true, s := false, a := false, d := false, up := false,
             down := false, left := false, right := false } [] wPlaying =
      flewPastCheck (ringCheck (evictPhase (genPhase []
        (checkCollisions (scorePass (kinStep
          { w := true, s := false, a := false, d := false, up := false,
            down := false, left := false, right := false } wPlaying)))))) :=
  ⟨scoring_monotone_and_idempotent.1 _ [] wPlaying,
   (scoring_monotone_and_idempotent.2.1 5
      { xPosition := 0, zPosition := 0, passed := true }).2.2.2 rfl,
   scoring_monotone_and_idempotent.2.2.2 _ [] wPlaying rfl rfl⟩

/-- C7: after the eviction step an obstacle at zPosition P is in the live
list exactly when it was there before and the plane's z does not exceed
P + 100 (strict: more than 100m behind evicts); the two phases that run
after eviction in a tick do not touch the pillar list. -/
theorem eviction_exactly_beyond_100m :
    (∀ (st : GameState) (o : Obstacle),
       o ∈ (evictPhase st).pillars ↔
         o ∈ st.pillars ∧ ¬(st.z > o.zPosition + 100)) ∧
    (∀ st : GameState, (flewPastCheck (ringCheck st)).pillars = st.pillars) := by
  constructor
  · intro st o
    unfold evictPhase
    simp only [List.mem_filter, Bool.not_eq_true', decide_eq_false_iff_not]
    constructor
    · rintro ⟨h1, h2⟩
      exact ⟨h1, fun hgt => h2 (by linarith)⟩
    · rintro ⟨h1, h2⟩
      exact ⟨h1, fun hlt => h2 (by linarith)⟩
  · intro st
    obtain ⟨-, -, -, -, -, -, -, -, -, -, -, hp1, -⟩ :=
      flewPastCheck_core (ringCheck st)
    obtain ⟨-, -, -, -, -, -, -, -, -, -, -, hp2, -⟩ := ringCheck_core st
    rw [hp1, hp2]

/-- State with one live pillar behind the plane used by the C7 witness. -/
def wEvict : GameState :=
  { wPlaying with pillars := [mkPillar 0 10], z := 200 }

/-- Witness for C7 at a concrete pillar 190m behind the plane. -/
theorem eviction_exactly_beyond_100m_witness :
    (mkPillar 0 10 ∈ (evictPhase wEvict).pillars ↔
       mkPillar 0 10 ∈ wEvict.pillars ∧ ¬(wEvict.z > (mkPillar 0 10).zPosition + 100)) ∧
    (flewPastCheck (ringCheck wEvict)).pillars = wEvict.pillars :=
  ⟨eviction_exactly_beyond_100m.1 wEvict (mkPillar 0 10),
   eviction_exactly_beyond_100m.2 wEvict⟩

theorem restartGame_y (spawn : List (ℚ × ℚ)) (st : GameState) :
    (restartGame spawn st).y = 5 := rfl

theorem returnToMainMenu_y (st : GameState) : (returnToMainMenu st).y = 5 := rfl

theorem selectLevel_y (n : ℕ) (spawn : List (ℚ × ℚ)) (st : GameState) :
    (selectLevel n spawn st).1.y = st.y := by
  unfold selectLevel
  dsimp only
  split <;> rfl

theorem update_y_range (keys : Keys) (spawn : List (ℚ × ℚ)) (st : GameState)
    (h : 1 ≤ st.y ∧ st.y ≤ 15) :
    1 ≤ (update keys spawn st).y ∧ (update keys spawn st).y ≤ 15 := by
  cases h1 : st.gameStarted
  · rw [update_frozen keys spawn st (Or.inl h1)]; exact h
  · cases h2 : st.gameOver
    · obtain ⟨hy, -, -, -, -, -, -, -, -⟩ :=
        update_fields_playing keys spawn st h1 h2
      rw [hy]
      exact kinStep_y_bound keys st h.1 h.2
    · rw [update_frozen keys spawn st (Or.inr h2)]; exact h

theorem reachable_y_range (st : GameState) (h : Reachable st) :
    1 ≤ st.y ∧ st.y ≤ 15 := by
  induction h with
  | init => refine ⟨?_, ?_⟩ <;> norm_num [initialState]
  | tick keys spawn st _ ih => exact update_y_range keys spawn st ih
  | restart spawn st _ _ => rw [restartGame_y]; norm_num
  | select n spawn st _ ih => rw [selectLevel_y]; exact ih
  | start st _ ih => exact ih
  | menu st _ _ => rw [returnToMainMenu_y]; norm_num

theorem groundCheck_noop (st : GameState) (h : 1 ≤ st.y) : groundCheck st = st := by
  unfold groundCheck
  rw [if_neg (not_lt.mpr (by linarith))]

/-- C10: from any reachable state the plane's altitude y stays in [1, 15]
(pitch-up is floored at 1, pitch-down is ceilinged at 15, otherwise y is
unchanged), so the ground-collision branch (y < 0.5), which only the
kinematic controller could reach, never fires during a tick. -/
theorem altitude_bounds_ground_unreachable :
    (∀ st : GameState, Reachable st → 1 ≤ st.y ∧ st.y ≤ 15) ∧
    (∀ (keys : Keys) (st : GameState), keys.up = true →
       (kinStep keys st).y = max (st.y - 1/10) 1) ∧
    (∀ (keys : Keys) (st : GameState), keys.up = false → keys.down = true →
       (kinStep keys st).y = min (st.y + 1/10) 15) ∧
    (∀ (keys : Keys) (st : GameState), keys.up = false → keys.down = false →
       (kinStep keys st).y = st.y) ∧
    (∀ st : GameState, 1 ≤ st.y → groundCheck st = st) ∧
    (∀ st : GameState, Reachable st → ∀ keys : Keys,
       groundCheck (barrierClamp (pillarCheck (scorePass (kinStep keys st)))) =
         barrierClamp (pillarCheck (scorePass (kinStep keys st)))) := by
  refine ⟨reachable_y_range, ?_, ?_, ?_, groundCheck_noop, ?_⟩
  · intro keys st hu
    simp [kinStep, hu]
  · intro keys st hu hd
    simp [kinStep, hu, hd]
  · intro keys st hu hd
    simp [kinStep, hu, hd]
  · intro st hr keys
    obtain ⟨hy1, hy15⟩ := reachable_y_range st hr
    have hk := (kinStep_y_bound keys st hy1 hy15).1
    obtain ⟨-, ha, -, -, -, -, -, -, -, -, -, -⟩ := scorePass_rest (kinStep keys st)
    obtain ⟨-, hb, -, -, -, -, -, -, -, -, -, -, -⟩ :=
      pillarCheck_core (scorePass (kinStep keys st))
    obtain ⟨hc, -, -, -, -, -, -, -, -, -, -, -, -⟩ :=
      barrierClamp_rest (pillarCheck (scorePass (kinStep keys st)))
    refine groundCheck_noop _ ?_
    rw [hc, hb, ha]
    exact hk

/-- Witness for C10 at the initial state. -/
theorem altitude_bounds_ground_unreachable_witness :
    (1 ≤ initialState.y ∧ initialState.y ≤ 15) ∧
    (kinStep { w := false, s := false, a := false, d := false, up := true,
               down := false, left := false, right := false } wPlaying).y =
      max (wPlaying.y - 1/10) 1 ∧
    groundCheck initialState = initialState ∧
    groundCheck (barrierClamp (pillarCheck (scorePass (kinStep
      { w := false, s := false, a := false, d := false, up := true,
        down := false, left := false, right := false } initialState)))) =
      barrierClamp (pillarCheck (scorePass (kinStep
        { w := false, s := false, a := false, d := false, up := true,
          down := false, left := false, right := false } initialState))) :=
  ⟨altitude_bounds_ground_unreachable.1 initialState Reachable.init,
   altitude_bounds_ground_unreachable.2.1 _ wPlaying rfl,
   altitude_bounds_ground_unreachable.2.2.2.2.1 initialState
     (by norm_num [initialState]),
   altitude_bounds_ground_unreachable.2.2.2.2.2 initialState Reachable.init _⟩

theorem scorePass_empty (st : GameState) (h : st.pillars = []) :
    scorePass st = st := by
  unfold scorePass
  rw [h, List.map_nil, List.countP_nil, Nat.mul_zero, Nat.add_zero, ← h]

theorem pillarCheck_empty (st : GameState) (h : st.pillars = []) :
    pillarCheck st = st := by
  unfold pillarCheck
  rw [h]
  simp

theorem barrierClamp_noop (st : GameState)
    (h1 : ¬(st.x - PLANE_HALF_WIDTH < -BARRIER_X_LIMIT))
    (h2 : ¬(st.x + PLANE_HALF_WIDTH > BARRIER_X_LIMIT)) :
    barrierClamp st = st := by
  unfold barrierClamp
  rw [if_neg h1, if_neg h2]

theorem genPhase_nil (st : GameState) : genPhase [] st = st := by
  unfold genPhase
  split
  · rw [List.map_nil, List.append_nil]
  · rfl

theorem evictPhase_empty (st : GameState) (h : st.pillars = []) :
    evictPhase st = st := by
  unfold evictPhase
  rw [h, List.filter_nil, ← h]

theorem ringCheck_noop (st : GameState) (r : Ring) (hr : st.ring = some r)
    (h : ¬(st.z ≥ r.zPosition - 2 ∧ st.z ≤ r.zPosition + 2)) :
    ringCheck st = st := by
  unfold ringCheck
  rw [hr]
  dsimp only
  rw [if_neg h]

theorem flewPastCheck_noop (st : GameState) (r : Ring) (hr : st.ring = some r)
    (h : ¬(st.z > r.zPosition + 10)) : flewPastCheck st = st := by
  unfold flewPastCheck
  rw [hr]
  dsimp only
  rw [if_neg h]

/-- The key state held for the throttle scenario: only the
speed-increase key is down. -/
def keysThrottle : Keys :=
  { w := true, s := false, a := false, d := false, up := false, down := false,
    left := false, right := false }

/-- With only the throttle held, a full Playing tick on an empty pillar
field far from the ring reduces to the kinematic step alone. -/
theorem update_throttle_eval (st : GameState) (r : Ring)
    (h1 : st.gameStarted = true) (h2 : st.gameOver = false)
    (hpil : st.pillars = []) (hr : st.ring = some r)
    (hx : st.x = 0) (hy : st.y = 5)
    (hfar : st.z + 5 < r.zPosition - 2) :
    update keysThrottle [] st = kinStep keysThrottle st := by
  have e_pil : (kinStep keysThrottle st).pillars = [] := by
    rw [(kinStep_rest keysThrottle st).2.2.2.1, hpil]
  have e_ring : (kinStep keysThrottle st).ring = some r := by
    rw [(kinStep_rest keysThrottle st).2.2.2.2.1, hr]
  have e_x : (kinStep keysThrottle st).x = st.x := rfl
  have e_y : (kinStep keysThrottle st).y = st.y := rfl
  have e_z : (kinStep keysThrottle st).z =
      st.z + min (st.speed + 1/100) MAX_SPEED := rfl
  have hzlt : (kinStep keysThrottle st).z < r.zPosition - 2 := by
    rw [e_z]
    have hm : min (st.speed + 1/100) MAX_SPEED ≤ 5 := by
      have := min_le_right (st.speed + 1/100) MAX_SPEED
      simp only [MAX_SPEED] at this
      exact this
    linarith
  have hcl1 : ¬((kinStep keysThrottle st).x - PLANE_HALF_WIDTH < -BARRIER_X_LIMIT) := by
    rw [e_x, hx]
    norm_num [PLANE_HALF_WIDTH, BARRIER_X_LIMIT]
  have hcl2 : ¬((kinStep keysThrottle st).x + PLANE_HALF_WIDTH > BARRIER_X_LIMIT) := by
    rw [e_x, hx]
    norm_num [PLANE_HALF_WIDTH, BARRIER_X_LIMIT]
  have hgr : 1 ≤ (kinStep keysThrottle st).y := by
    rw [e_y, hy]
    norm_num
  rw [update_playing _ _ _ h1 h2]
  unfold checkCollisions
  rw [scorePass_empty _ e_pil, pillarCheck_empty _ e_pil,
      barrierClamp_noop _ hcl1 hcl2,
      groundCheck_noop _ hgr,
      genPhase_nil, evictPhase_empty _ e_pil,
      ringCheck_noop _ r e_ring (fun hc => absurd hc.1 (not_le.mpr hzlt)),
      flewPastCheck_noop _ r e_ring (not_lt.mpr (by linarith))]

/-- Invariant carried through the 50-tick throttle scenario. -/
def ThrottleInv (k : ℕ) (st : GameState) : Prop :=
  st.gameStarted = true ∧ st.gameOver = false ∧ st.pillars = [] ∧
  st.ring = some { x := 0, y := 8, zPosition := 3000 - 50 } ∧
  st.x = 0 ∧ st.y = 5 ∧
  st.speed = 1/2 + (k : ℚ)/100 ∧ 0 ≤ st.z ∧ st.z ≤ 5 * (k : ℚ)

theorem throttleInv_step (k : ℕ) (st : GameState) (hk : k ≤ 50)
    (h : ThrottleInv k st) :
    ThrottleInv (k + 1) (update keysThrottle [] st) := by
  obtain ⟨h1, h2, h3, h4, h5, h6, h7, h8, h9⟩ := h
  have hkq : (k : ℚ) ≤ 50 := by exact_mod_cast hk
  have hfar : st.z + 5 <
      ({ x := 0, y := 8, zPosition := 3000 - 50 } : Ring).zPosition - 2 := by
    dsimp only
    have h250 : st.z ≤ 250 := by linarith
    linarith
  rw [update_throttle_eval st _ h1 h2 h3 h4 h5 h6 hfar]
  have hmin : min (st.speed + 1/100) MAX_SPEED = st.speed + 1/100 := by
    apply min_eq_left
    simp only [MAX_SPEED]
    rw [h7]
    linarith
  have e_sp : (kinStep keysThrottle st).speed =
      min (st.speed + 1/100) MAX_SPEED := rfl
  have e_z : (kinStep keysThrottle st).z =
      st.z + min (st.speed + 1/100) MAX_SPEED := rfl
  refine ⟨h1, h2, ?_, ?_, h5, h6, ?_, ?_, ?_⟩
  · rw [(kinStep_rest keysThrottle st).2.2.2.1, h3]
  · rw [(kinStep_rest keysThrottle st).2.2.2.2.1, h4]
  · rw [e_sp, hmin, h7]
    push_cast
    ring
  · rw [e_z, hmin, h7]
    positivity
  · rw [e_z, hmin, h7]
    push_cast
    linarith

theorem throttleInv_iterate :
    ∀ k : ℕ, k ≤ 50 →
      ThrottleInv k ((update keysThrottle [])^[k] wPlaying) := by
  intro k
  induction k with
  | zero =>
      intro _
      refine ⟨rfl, rfl, rfl, rfl, rfl, rfl, ?_, ?_, ?_⟩ <;>
        norm_num [wPlaying, initialState, INITIAL_SPEED]
  | succ n ih =>
      intro hk
      rw [Function.iterate_succ_apply']
      exact throttleInv_step n _ (by omega) (ih (by omega))

/-- C8: per Playing tick, holding only the speed-increase key moves speed
to min(speed + 0.01, MAX_SPEED), holding only the decrease key to
max(speed - 0.01, MIN_SPEED), and holding neither leaves it unchanged;
from the started initial state (speed 0.5) fifty consecutive
throttle-held ticks end at speed exactly 1. -/
theorem throttle_step_and_fifty_tick_scenario :
    (∀ (keys : Keys) (spawn : List (ℚ × ℚ)) (st : GameState),
       st.gameStarted = true → st.gameOver = false →
       ((keys.w = true → keys.s = false →
           (update keys spawn st).speed = min (st.speed + 1/100) MAX_SPEED) ∧
        (keys.w = false → keys.s = true →
           (update keys spawn st).speed = max (st.speed - 1/100) MIN_SPEED) ∧
        (keys.w = false → keys.s = false →
           (update keys spawn st).speed = st.speed))) ∧
    ((update keysThrottle [])^[50] wPlaying).speed = 1 := by
  constructor
  · intro keys spawn st h1 h2
    obtain ⟨-, -, hsp, -, -, -, -, -, -⟩ :=
      update_fields_playing keys spawn st h1 h2
    refine ⟨?_, ?_, ?_⟩ <;> intro hw hs <;> rw [hsp] <;> simp [kinStep, hw, hs]
  · obtain ⟨-, -, -, -, -, -, hsp, -, -⟩ :=
      throttleInv_iterate 50 (le_refl 50)
    rw [hsp]
    norm_num

/-- Witness for C8: the per-tick throttle formula instantiated at the
started initial state. -/
theorem throttle_step_and_fifty_tick_scenario_witness :
    (update keysThrottle [] wPlaying).speed =
      min (wPlaying.speed + 1/100) MAX_SPEED ∧
    ((update keysThrottle [])^[50] wPlaying).speed = 1 :=
  ⟨(throttle_step_and_fifty_tick_scenario.1 keysThrottle [] wPlaying rfl rfl).1
      rfl rfl,
   throttle_step_and_fifty_tick_scenario.2⟩

end AeroGame
